import Mathlib

/-!
# Verification of the evaluation-ingestion admission-control path

Shallow embedding of the `ingest-evaluation` edge function
(`Deno.serve` handler) together with the datastore behaviour fixed by the
schema migration.  External collaborators (identity provider, config store,
random source, quota-count query, JSON parser, row insert) are modelled by
passing their per-call results explicitly to the handler, so the handler
itself is a pure function mirroring the source line by line.
-/

namespace IngestEval

/-- Row of `eval_configs` as read by the handler (`select("*").single()`).
`run_policy` is a `TEXT` column constrained to `'always' | 'sampled'` by the
schema; the handler compares it to the string `"sampled"`. -/
structure EvalConfig where
  run_policy : String
  sample_rate_pct : Nat
  obfuscate_pii : Bool
  max_eval_per_day : Nat
  deriving Repr, DecidableEq

/-- The `EvalPayload` interface of the edge function: the parsed request
body.  `score`, `flags` and `pii_tokens_redacted` are optional fields. -/
structure EvalPayload where
  interaction_id : String
  prompt : String
  response : String
  score : Option Rat
  latency_ms : Int
  flags : Option (List String)
  pii_tokens_redacted : Option Nat
  deriving Repr, DecidableEq

/-- Row of the `evaluations` table.  `id` and `created_at` are assigned by
the store at insert time (`DEFAULT gen_random_uuid()` / `DEFAULT now()`);
timestamps are modelled as integers (epoch instants). -/
structure EvaluationRecord where
  id : Nat
  user_id : String
  interaction_id : String
  prompt : String
  response : String
  score : Option Rat
  latency_ms : Int
  flags : List String
  pii_tokens_redacted : Nat
  created_at : Int
  deriving Repr, DecidableEq

/-- Result of a supabase `.single()` read: either one row, or an error
(which covers both a collaborator I/O failure and the zero-rows error —
`.single()` reports "no rows" as an error with `data = null`). -/
inductive DbSingleResult (α : Type) where
  | ok (row : α)
  | error (msg : String)
  deriving Repr, DecidableEq

/-- Result of the `insert(...).select().single()` call: on success the store
assigns the new row an `id` and a `created_at` stamp. -/
inductive InsertResult where
  | ok (id : Nat) (created_at : Int)
  | error (msg : String)
  deriving Repr, DecidableEq

/-- The response body shapes the handler constructs:
`{error: ...}`, `{message: ...}`, or `{success: true, evaluation: ...}`. -/
inductive ResponseBody where
  | errorMsg (error : String)
  | message (message : String)
  | successEval (evaluation : EvaluationRecord)
  deriving Repr, DecidableEq

/-- An HTTP-style response: status code plus JSON body. -/
structure HttpResponse where
  status : Nat
  body : ResponseBody
  deriving Repr, DecidableEq

/-- Observable outcome of one ingestion call: the response sent to the
caller plus the list of rows this call appended to the evaluation log
(empty or a singleton). -/
structure HandlerResult where
  response : HttpResponse
  written : List EvaluationRecord
  deriving Repr, DecidableEq

/-- Per-call results of every external collaborator the handler consults,
in source order: the `Authorization` header, `auth.getUser` (`none` models
`authError || !user`), the `eval_configs` read, the value of
`Math.random() * 100`, the quota-count query (`none` models a null count,
i.e. a failed read), `req.json()` (`Except.error` models a thrown parse
error), and the row insert. -/
structure Collaborators where
  authHeader : Option String
  userResult : Option String
  configResult : DbSingleResult EvalConfig
  randomDraw : Rat
  countResult : Option Nat
  parseResult : Except String EvalPayload
  insertResult : InsertResult
  deriving Repr

/-- The sampling decision inlined in the source:
`Math.random() * 100 < config.sample_rate_pct`, with the draw uniform in
[0,100). -/
def samplingDecide (draw : Rat) (sample_rate_pct : Nat) : Bool :=
  draw < (sample_rate_pct : Rat)

/-- The quota-count query issued by the handler: number of `evaluations`
rows with `user_id = uid` and `created_at >= startOfToday`
(`.eq("user_id", user.id).gte("created_at", today.toISOString())`). -/
def countToday (log : List EvaluationRecord) (uid : String)
    (startOfToday : Int) : Nat :=
  (log.filter (fun r => r.user_id == uid &&
    decide (startOfToday ≤ r.created_at))).length

/-- The spec's stated window for `countToday`: rows with `user_id = uid`
and `created_at` in the half-open interval `[startOfToday, now)`.  Written
from the spec's words, to be compared with `countToday` above. -/
def countTodaySpecWindow (log : List EvaluationRecord) (uid : String)
    (startOfToday now : Int) : Nat :=
  (log.filter (fun r => r.user_id == uid &&
    decide (startOfToday ≤ r.created_at) &&
    decide (r.created_at < now))).length

/-- Rows of `uid` dated at or after the instant `now` (future-dated rows
included by the source's `gte`-only filter but excluded by the spec's
half-open window). -/
def countFromNow (log : List EvaluationRecord) (uid : String)
    (now : Int) : Nat :=
  (log.filter (fun r => r.user_id == uid &&
    decide (now ≤ r.created_at))).length

/-- The row the handler inserts into `evaluations`, as the store returns
it: `user_id` is the authenticated user's id (the payload carries no user
field), `flags: payload.flags || []`,
`pii_tokens_redacted: payload.pii_tokens_redacted || 0`, `score` passed
through as-is, and `id` / `created_at` stamped by the store at insert
time. -/
def insertedRow (uid : String) (payload : EvalPayload) (newId : Nat)
    (stamp : Int) : EvaluationRecord :=
  { id := newId
    user_id := uid
    interaction_id := payload.interaction_id
    prompt := payload.prompt
    response := payload.response
    score := payload.score
    latency_ms := payload.latency_ms
    flags := payload.flags.getD []
    pii_tokens_redacted := payload.pii_tokens_redacted.getD 0
    created_at := stamp }

/-- Steps 4–5 of the handler (quota gate and persistence), reached once
identity, config and sampling have all passed.  Mirrors the source: the
count is compared only when non-null (`count !== null && count >= max`);
then `req.json()` is awaited; then the row is inserted with
`flags: payload.flags || []` and
`pii_tokens_redacted: payload.pii_tokens_redacted || 0`, the store stamping
`id` and `created_at`. -/
def quotaAndPersist (env : Collaborators) (uid : String)
    (config : EvalConfig) : HandlerResult :=
  let overQuota : Bool :=
    match env.countResult with
    | some count => decide (count ≥ config.max_eval_per_day)
    | none => false
  if overQuota then
    { response := ⟨429, .errorMsg "Daily evaluation limit reached"⟩,
      written := [] }
  else
    match env.parseResult with
    | .error msg =>
      { response := ⟨500, .errorMsg msg⟩, written := [] }
    | .ok payload =>
      match env.insertResult with
      | .error msg =>
        { response := ⟨500, .errorMsg msg⟩, written := [] }
      | .ok newId stamp =>
        let evaluation := insertedRow uid payload newId stamp
        { response := ⟨201, .successEval evaluation⟩,
          written := [evaluation] }

/-- The full `Deno.serve` handler for one request, as a pure function of
the collaborator results.  Follows the source's control flow in order:
missing `Authorization` header → 401; `auth.getUser` failure → 401;
`eval_configs` read whose error is discarded (`const { data: config }`) and
null config → 400; sampling gate when `run_policy === "sampled"`; then the
quota gate and persistence of `quotaAndPersist`. -/
def handler (env : Collaborators) : HandlerResult :=
  match env.authHeader with
  | none =>
    { response := ⟨401, .errorMsg "Missing authorization header"⟩,
      written := [] }
  | some _ =>
    match env.userResult with
    | none =>
      { response := ⟨401, .errorMsg "Unauthorized"⟩, written := [] }
    | some uid =>
      let config? : Option EvalConfig :=
        match env.configResult with
        | .ok c => some c
        | .error _ => none
      match config? with
      | none =>
        { response := ⟨400, .errorMsg "No evaluation config found"⟩,
          written := [] }
      | some config =>
        if config.run_policy = "sampled" then
          let shouldProcess := samplingDecide env.randomDraw
            config.sample_rate_pct
          if !shouldProcess then
            { response :=
                ⟨200, .message "Evaluation skipped due to sampling"⟩,
              written := [] }
          else
            quotaAndPersist env uid config
        else
          quotaAndPersist env uid config

/-- Sequential composition of one ingestion call with the evaluation log:
the call's written rows are appended to the log. -/
def runCall (log : List EvaluationRecord) (env : Collaborators) :
    HandlerResult × List EvaluationRecord :=
  let r := handler env
  (r, log ++ r.written)

/-- The terminal Skipped(SampledOut) result of the source: HTTP 200 with
`{message: "Evaluation skipped due to sampling"}` and nothing written. -/
def skippedResult : HandlerResult :=
  { response := ⟨200, .message "Evaluation skipped due to sampling"⟩,
    written := [] }

/-! ## Concrete fixtures used by witnesses and counterexamples -/

/-- A config with policy `always` and `max_eval_per_day = 2`. -/
def cfgAlwaysK2 : EvalConfig := ⟨"always", 100, false, 2⟩

/-- A `sampled` config with `sample_rate_pct = 100`. -/
def cfgSampled100 : EvalConfig := ⟨"sampled", 100, false, 10⟩

/-- A `sampled` config with `sample_rate_pct = 0`. -/
def cfgSampled0 : EvalConfig := ⟨"sampled", 0, false, 10⟩

/-- A payload with every optional field absent. -/
def payloadA : EvalPayload := ⟨"int-1", "prompt text", "reply text",
  none, 5, none, none⟩

/-- An evaluation row owned by `u1` with the given id and timestamp. -/
def mkRow (i : Nat) (t : Int) : EvaluationRecord :=
  ⟨i, "u1", "int-0", "p", "r", none, 5, [], 0, t⟩

/-- A fully passing environment: authorized as `u1`, policy `always`
(`cfgAlwaysK2`), count 0, well-formed payload, successful insert. -/
def envAccept : Collaborators :=
  ⟨some "Bearer t", some "u1", .ok cfgAlwaysK2, 50, some 0,
    .ok payloadA, .ok 9 1000⟩

/-! ## Shared lemmas about the handler's control flow -/

/-- Once identity and config resolve and the sampling gate passes (or is
not taken), the handler proceeds to the quota/persistence phase. -/
theorem handler_eq_quotaAndPersist
    (env : Collaborators) (tok uid : String) (config : EvalConfig)
    (hA : env.authHeader = some tok) (hU : env.userResult = some uid)
    (hC : env.configResult = .ok config)
    (hGate : config.run_policy = "sampled" →
      samplingDecide env.randomDraw config.sample_rate_pct = true) :
    handler env = quotaAndPersist env uid config := by
  unfold handler
  rw [hA, hU, hC]
  by_cases hp : config.run_policy = "sampled"
  · simp [hp, hGate hp]
  · simp [hp]

/-- The quota/persistence phase never produces an HTTP 200: its outcomes
are 429, 500 or 201. -/
theorem quotaAndPersist_status_ne_200
    (env : Collaborators) (uid : String) (config : EvalConfig) :
    (quotaAndPersist env uid config).response.status ≠ 200 := by
  unfold quotaAndPersist
  rcases env.countResult with _ | c <;>
    rcases hP : env.parseResult with m | p <;>
    rcases hI : env.insertResult with m' | ⟨i, t⟩ <;>
    simp [hP, hI] <;> split <;> simp

/-- Under quota (or with a null count), with a parsed payload and a
successful insert, the quota/persistence phase accepts and appends exactly
the inserted row. -/
theorem quotaAndPersist_accept
    (env : Collaborators) (uid : String) (config : EvalConfig)
    (p : EvalPayload) (newId : Nat) (stamp : Int)
    (hQ : ∀ c, env.countResult = some c → c < config.max_eval_per_day)
    (hP : env.parseResult = .ok p)
    (hI : env.insertResult = .ok newId stamp) :
    quotaAndPersist env uid config =
      { response := ⟨201, .successEval (insertedRow uid p newId stamp)⟩,
        written := [insertedRow uid p newId stamp] } := by
  unfold quotaAndPersist
  rcases hc : env.countResult with _ | c
  · simp [hP, hI]
  · simp [hP, hI, Nat.not_le.mpr (hQ c hc)]

/-- With a non-null count at or above the limit, the quota/persistence
phase rejects with the 429 response and writes nothing. -/
theorem quotaAndPersist_over
    (env : Collaborators) (uid : String) (config : EvalConfig) (c : Nat)
    (hcnt : env.countResult = some c)
    (hge : config.max_eval_per_day ≤ c) :
    quotaAndPersist env uid config =
      { response := ⟨429, .errorMsg "Daily evaluation limit reached"⟩,
        written := [] } := by
  unfold quotaAndPersist
  rw [hcnt]
  simp [hge]

/-- Under quota, a body-parse failure propagates as a 500 with the thrown
message, and nothing is written. -/
theorem quotaAndPersist_parse_error
    (env : Collaborators) (uid : String) (config : EvalConfig)
    (msg : String)
    (hQ : ∀ c, env.countResult = some c → c < config.max_eval_per_day)
    (hP : env.parseResult = .error msg) :
    quotaAndPersist env uid config =
      { response := ⟨500, .errorMsg msg⟩, written := [] } := by
  unfold quotaAndPersist
  rcases hc : env.countResult with _ | c
  · simp [hP]
  · simp [hP, Nat.not_le.mpr (hQ c hc)]

/-- Under quota with a parsed payload, an insert failure yields a 500
with the store's error message, and nothing is written. -/
theorem quotaAndPersist_insert_error
    (env : Collaborators) (uid : String) (config : EvalConfig)
    (p : EvalPayload) (msg : String)
    (hQ : ∀ c, env.countResult = some c → c < config.max_eval_per_day)
    (hP : env.parseResult = .ok p)
    (hI : env.insertResult = .error msg) :
    quotaAndPersist env uid config =
      { response := ⟨500, .errorMsg msg⟩, written := [] } := by
  unfold quotaAndPersist
  rcases hc : env.countResult with _ | c
  · simp [hP, hI]
  · simp [hP, hI, Nat.not_le.mpr (hQ c hc)]

/-- Sampled-out calls terminate with the skipped result. -/
theorem handler_skip
    (env : Collaborators) (tok uid : String) (config : EvalConfig)
    (hA : env.authHeader = some tok) (hU : env.userResult = some uid)
    (hC : env.configResult = .ok config)
    (hp : config.run_policy = "sampled")
    (hs : ¬ env.randomDraw < (config.sample_rate_pct : Rat)) :
    handler env = skippedResult := by
  unfold handler
  rw [hA, hU, hC]
  have hno : samplingDecide env.randomDraw config.sample_rate_pct
      = false := by
    simp [samplingDecide]
    exact le_of_not_lt hs
  simp [hp, hno, skippedResult]

/-! ## C1: quota boundary -/

/-- C1.  Quota boundary: for a user whose config has
`max_eval_per_day = K` (with `K ≥ 1`, as the schema requires), an
authorized, configured call that reaches the quota gate with exactly `K`
records counted for today yields the 429 QuotaExceeded rejection and
writes no record; the same call seeing a log with exactly `K - 1` records
counted for today passes the quota gate and, the write succeeding, yields
the 201 Accepted outcome. -/
theorem quota_boundary
    (env : Collaborators) (tok uid : String) (config : EvalConfig)
    (log log' : List EvaluationRecord) (startOfToday : Int) (K : Nat)
    (p : EvalPayload) (newId : Nat) (stamp : Int)
    (hA : env.authHeader = some tok) (hU : env.userResult = some uid)
    (hC : env.configResult = .ok config)
    (hGate : config.run_policy = "sampled" →
      samplingDecide env.randomDraw config.sample_rate_pct = true)
    (hK : config.max_eval_per_day = K) (hKpos : 1 ≤ K)
    (hP : env.parseResult = .ok p)
    (hI : env.insertResult = .ok newId stamp)
    (hcnt : env.countResult = some (countToday log uid startOfToday))
    (hatK : countToday log uid startOfToday = K)
    (hatK' : countToday log' uid startOfToday = K - 1) :
    handler env =
      { response := ⟨429, .errorMsg "Daily evaluation limit reached"⟩,
        written := [] }
    ∧ (handler
        { env with countResult := some (countToday log' uid startOfToday) }
       ).response.status = 201 := by
  constructor
  · rw [handler_eq_quotaAndPersist env tok uid config hA hU hC hGate]
    unfold quotaAndPersist
    rw [hcnt, hatK, hK]
    simp
  · rw [handler_eq_quotaAndPersist
      { env with countResult := some (countToday log' uid startOfToday) }
      tok uid config hA hU hC hGate]
    unfold quotaAndPersist
    rw [show ({ env with
          countResult := some (countToday log' uid startOfToday)
        } : Collaborators).countResult
        = some (countToday log' uid startOfToday) from rfl,
      hatK', hK, hP, hI]
    have hlt : ¬ K ≤ K - 1 := by omega
    simp [hlt]

/-- Witness for C1 at a concrete input: `K = 2`, a log with two rows
counted today versus a log with one. -/
theorem quota_boundary_witness :
    handler { envAccept with
        countResult := some (countToday [mkRow 1 100, mkRow 2 200] "u1" 0) }
      = { response := ⟨429, .errorMsg "Daily evaluation limit reached"⟩,
          written := [] }
    ∧ (handler { { envAccept with
          countResult :=
            some (countToday [mkRow 1 100, mkRow 2 200] "u1" 0) } with
          countResult := some (countToday [mkRow 1 100] "u1" 0) }
       ).response.status = 201 :=
  quota_boundary
    { envAccept with
      countResult := some (countToday [mkRow 1 100, mkRow 2 200] "u1" 0) }
    "Bearer t" "u1" cfgAlwaysK2 [mkRow 1 100, mkRow 2 200] [mkRow 1 100]
    0 2 payloadA 9 1000 rfl rfl rfl
    (fun h => absurd h (by decide)) rfl (by decide) rfl rfl rfl
    (by decide) (by decide)

/-! ## C2: sampling gate semantics -/

/-- C2.  The sampling decision accepts iff the uniform draw in [0,100) is
strictly below `sample_rate_pct`; hence with `sample_rate_pct = 100` an
authorized, configured `sampled` call never yields the 200 Skipped
outcome for any draw in [0,100); with `sample_rate_pct = 0` it always
yields Skipped(SampledOut); and under policy `always` the handler's
outcome does not depend on the random draw at all. -/
theorem sampling_gate_semantics
    (env1 env2 env3 : Collaborators) (tok uid : String)
    (c1 c2 c3 : EvalConfig)
    (h1A : env1.authHeader = some tok) (h1U : env1.userResult = some uid)
    (h1C : env1.configResult = .ok c1)
    (h1p : c1.run_policy = "sampled") (h1r : c1.sample_rate_pct = 100)
    (h1hi : env1.randomDraw < 100)
    (h2A : env2.authHeader = some tok) (h2U : env2.userResult = some uid)
    (h2C : env2.configResult = .ok c2)
    (h2p : c2.run_policy = "sampled") (h2r : c2.sample_rate_pct = 0)
    (h2lo : 0 ≤ env2.randomDraw)
    (h3A : env3.authHeader = some tok) (h3U : env3.userResult = some uid)
    (h3C : env3.configResult = .ok c3)
    (h3p : c3.run_policy = "always") :
    (∀ (draw : Rat) (rate : Nat),
      samplingDecide draw rate = true ↔ draw < (rate : Rat))
    ∧ (handler env1).response.status ≠ 200
    ∧ handler env2 = skippedResult
    ∧ (∀ d, handler { env3 with randomDraw := d } = handler env3) := by
  refine ⟨fun draw rate => by simp [samplingDecide], ?_, ?_, ?_⟩
  · have hGate : c1.run_policy = "sampled" →
        samplingDecide env1.randomDraw c1.sample_rate_pct = true := by
      intro _
      simp [samplingDecide, h1r]
      exact h1hi
    rw [handler_eq_quotaAndPersist env1 tok uid c1 h1A h1U h1C hGate]
    exact quotaAndPersist_status_ne_200 env1 uid c1
  · unfold handler
    rw [h2A, h2U, h2C]
    have hno : samplingDecide env2.randomDraw c2.sample_rate_pct = false := by
      simp [samplingDecide, h2r]
      exact h2lo
    simp [h2p, hno, skippedResult]
  · intro d
    have hGate : c3.run_policy = "sampled" →
        samplingDecide env3.randomDraw c3.sample_rate_pct = true :=
      fun h => absurd (h3p.symm.trans h) (by decide)
    have hGate' : c3.run_policy = "sampled" →
        samplingDecide ({ env3 with randomDraw := d } :
          Collaborators).randomDraw c3.sample_rate_pct = true :=
      fun h => absurd (h3p.symm.trans h) (by decide)
    rw [handler_eq_quotaAndPersist { env3 with randomDraw := d }
        tok uid c3 h3A h3U h3C hGate',
      handler_eq_quotaAndPersist env3 tok uid c3 h3A h3U h3C hGate]
    rfl

/-- Witness for C2: three concrete environments — sampled at 100% with
draw 50, sampled at 0% with draw 50, and policy `always`. -/
theorem sampling_gate_semantics_witness :
    (∀ (draw : Rat) (rate : Nat),
      samplingDecide draw rate = true ↔ draw < (rate : Rat))
    ∧ (handler { envAccept with configResult := .ok cfgSampled100 }
       ).response.status ≠ 200
    ∧ handler { envAccept with configResult := .ok cfgSampled0 }
        = skippedResult
    ∧ (∀ d, handler { envAccept with randomDraw := d } = handler envAccept) :=
  sampling_gate_semantics
    { envAccept with configResult := .ok cfgSampled100 }
    { envAccept with configResult := .ok cfgSampled0 }
    envAccept "Bearer t" "u1" cfgSampled100 cfgSampled0 cfgAlwaysK2
    rfl rfl rfl rfl rfl (by norm_num [envAccept])
    rfl rfl rfl rfl rfl (by norm_num [envAccept])
    rfl rfl rfl rfl

/-! ## C3: Skipped is a pure no-op -/

/-- C3.  When policy is `sampled` and the draw is not below the sample
rate, the call terminates with the HTTP 200 skipped response, writes no
record, and its outcome is independent of both the quota-count result and
the request body: the evaluation log is unchanged. -/
theorem skipped_pure_noop
    (env : Collaborators) (tok uid : String) (config : EvalConfig)
    (hA : env.authHeader = some tok) (hU : env.userResult = some uid)
    (hC : env.configResult = .ok config)
    (hp : config.run_policy = "sampled")
    (hs : ¬ env.randomDraw < (config.sample_rate_pct : Rat)) :
    handler env = skippedResult
    ∧ (handler env).written = []
    ∧ (∀ c, handler { env with countResult := c } = handler env)
    ∧ (∀ pr, handler { env with parseResult := pr } = handler env) := by
  have key : ∀ e : Collaborators, e.authHeader = some tok →
      e.userResult = some uid → e.configResult = .ok config →
      e.randomDraw = env.randomDraw → handler e = skippedResult := by
    intro e h1 h2 h3 h4
    unfold handler
    rw [h1, h2, h3]
    have hno : samplingDecide e.randomDraw config.sample_rate_pct
        = false := by
      rw [h4]
      simp [samplingDecide]
      exact le_of_not_lt hs
    simp [hp, hno, skippedResult]
  have h0 := key env hA hU hC rfl
  refine ⟨h0, by rw [h0]; rfl, fun c => ?_, fun pr => ?_⟩
  · rw [key { env with countResult := c } hA hU hC rfl, h0]
  · rw [key { env with parseResult := pr } hA hU hC rfl, h0]

/-- Witness for C3: sampled config at rate 0 with draw 50. -/
theorem skipped_pure_noop_witness :
    handler { envAccept with configResult := .ok cfgSampled0 }
      = skippedResult
    ∧ (handler { envAccept with configResult := .ok cfgSampled0 }
       ).written = []
    ∧ (∀ c, handler { { envAccept with
          configResult := .ok cfgSampled0 } with countResult := c }
        = handler { envAccept with configResult := .ok cfgSampled0 })
    ∧ (∀ pr, handler { { envAccept with
          configResult := .ok cfgSampled0 } with parseResult := pr }
        = handler { envAccept with configResult := .ok cfgSampled0 }) :=
  skipped_pure_noop { envAccept with configResult := .ok cfgSampled0 }
    "Bearer t" "u1" cfgSampled0 rfl rfl rfl rfl
    (by norm_num [envAccept, cfgSampled0])

/-! ## C4: record construction on acceptance -/

/-- C4.  On every accepted call the persisted row's `user_id` is the
identity resolved from the bearer token (the payload has no user field),
`created_at` is the stamp assigned at persistence time by the store,
absent `flags` default to the empty list, absent `pii_tokens_redacted`
defaults to 0, and `score` is passed through unchanged: an absent score
persists as `none` (not scored), while a present score of 0 persists as
`some 0`, distinguishable from absent. -/
theorem accepted_record_construction
    (env : Collaborators) (tok uid : String) (config : EvalConfig)
    (p : EvalPayload) (newId : Nat) (stamp : Int)
    (hA : env.authHeader = some tok) (hU : env.userResult = some uid)
    (hC : env.configResult = .ok config)
    (hGate : config.run_policy = "sampled" →
      samplingDecide env.randomDraw config.sample_rate_pct = true)
    (hQ : ∀ c, env.countResult = some c → c < config.max_eval_per_day)
    (hP : env.parseResult = .ok p)
    (hI : env.insertResult = .ok newId stamp) :
    (handler env).response.status = 201
    ∧ (handler env).written.length = 1
    ∧ ∀ rec ∈ (handler env).written,
        rec.user_id = uid
        ∧ rec.created_at = stamp
        ∧ rec.score = p.score
        ∧ (p.score = none → rec.score = none)
        ∧ (p.score = some 0 → rec.score = some 0)
        ∧ (p.flags = none → rec.flags = [])
        ∧ (p.pii_tokens_redacted = none → rec.pii_tokens_redacted = 0) := by
  rw [handler_eq_quotaAndPersist env tok uid config hA hU hC hGate,
    quotaAndPersist_accept env uid config p newId stamp hQ hP hI]
  refine ⟨rfl, rfl, ?_⟩
  intro rec hrec
  rw [List.mem_singleton] at hrec
  subst hrec
  refine ⟨rfl, rfl, rfl, fun h => ?_, fun h => ?_, fun h => ?_, fun h => ?_⟩
  · simp [insertedRow, h]
  · simp [insertedRow, h]
  · simp [insertedRow, h]
  · simp [insertedRow, h]

/-- Witness for C4: the fully passing environment `envAccept`, whose
payload has all optional fields absent. -/
theorem accepted_record_construction_witness :
    (handler envAccept).response.status = 201
    ∧ (handler envAccept).written.length = 1
    ∧ ∀ rec ∈ (handler envAccept).written,
        rec.user_id = "u1"
        ∧ rec.created_at = 1000
        ∧ rec.score = payloadA.score
        ∧ (payloadA.score = none → rec.score = none)
        ∧ (payloadA.score = some 0 → rec.score = some 0)
        ∧ (payloadA.flags = none → rec.flags = [])
        ∧ (payloadA.pii_tokens_redacted = none →
            rec.pii_tokens_redacted = 0) :=
  accepted_record_construction envAccept "Bearer t" "u1" cfgAlwaysK2
    payloadA 9 1000 rfl rfl rfl (fun h => absurd h (by decide))
    (fun c hc => by
      simp [envAccept] at hc
      simp [cfgAlwaysK2, ← hc])
    rfl rfl

/-! ## C10: config-read error indistinguishable from absent config -/

/-- C10.  The handler discards the error of the config read
(`const { data: config } = ...`): whenever the `eval_configs` lookup
returns an error — a collaborator failure or the zero-rows error — the
call yields the 400 "No evaluation config found" rejection, exactly as
for a genuinely missing config, never a 500. -/
theorem config_error_as_no_config
    (env : Collaborators) (tok uid e : String)
    (hA : env.authHeader = some tok) (hU : env.userResult = some uid)
    (hC : env.configResult = .error e) :
    handler env =
      { response := ⟨400, .errorMsg "No evaluation config found"⟩,
        written := [] } := by
  unfold handler
  rw [hA, hU, hC]

/-- Witness for C10: a failing config read surfaces as the 400
no-config response. -/
theorem config_error_as_no_config_witness :
    handler { envAccept with configResult := .error "io failure" }
      = { response := ⟨400, .errorMsg "No evaluation config found"⟩,
          written := [] } :=
  config_error_as_no_config
    { envAccept with configResult := .error "io failure" }
    "Bearer t" "u1" "io failure" rfl rfl rfl

/-! ## C5: the quota-count window -/

/-- C5 counterexample.  The source filters only
`created_at >= startOfToday` with no upper bound, so a future-dated row
(here `created_at = 10` with `now = 5`) is counted by the query although
the spec's half-open window `[startOfToday, now)` excludes it: the claim
that `countToday` equals the `[startOfToday, now)` count is false. -/
theorem countToday_window_cex :
    (5:Int) ≤ (mkRow 1 10).created_at
    ∧ countToday [mkRow 1 10] "u1" 0 = 1
    ∧ countTodaySpecWindow [mkRow 1 10] "u1" 0 5 = 0
    ∧ countToday [mkRow 1 10] "u1" 0
        ≠ countTodaySpecWindow [mkRow 1 10] "u1" 0 5 := by
  decide

/-- C5 amended.  `countToday(userId)` counts the rows of `userId` with
`createdAt ≥ startOfToday` and no upper bound: it equals the spec's
`[startOfToday, now)` count plus the number of rows dated at or after
`now` — future-dated rows are included, not excluded. -/
theorem countToday_window_amended
    (log : List EvaluationRecord) (uid : String) (s now : Int)
    (h : s ≤ now) :
    countToday log uid s =
      countTodaySpecWindow log uid s now + countFromNow log uid now := by
  induction log with
  | nil => rfl
  | cons r l ih =>
    unfold countToday countTodaySpecWindow countFromNow at ih ⊢
    simp only [List.filter_cons]
    by_cases hu : (r.user_id == uid) = true
    · by_cases h1 : s ≤ r.created_at
      · by_cases h2 : r.created_at < now
        · have h3 : ¬ now ≤ r.created_at := by omega
          simp [hu, h1, h2, h3] at ih ⊢
          omega
        · have h3 : now ≤ r.created_at := by omega
          simp [hu, h1, h2, h3] at ih ⊢
          omega
      · have h3 : ¬ now ≤ r.created_at := by omega
        simp [hu, h1, h3] at ih ⊢
        omega
    · simp [hu] at ih ⊢
      omega

/-- Witness for C5 amended: a log with one row inside the window and one
future-dated row, split `2 = 1 + 1`. -/
theorem countToday_window_amended_witness :
    countToday [mkRow 1 100, mkRow 2 2000] "u1" 0 =
      countTodaySpecWindow [mkRow 1 100, mkRow 2 2000] "u1" 0 1000 +
      countFromNow [mkRow 1 100, mkRow 2 2000] "u1" 1000 :=
  countToday_window_amended [mkRow 1 100, mkRow 2 2000] "u1" 0 1000
    (by decide)

/-! ## C6: behaviour when the quota-count read fails -/

/-- C6 counterexample.  The source checks `count !== null` before the
quota comparison: when the count read fails (null count), the call is not
surfaced as a failure — it proceeds to persistence and is accepted.  Here
a call whose count read failed yields 201 and writes a record, refuting
the claim that the failure is propagated to the caller. -/
theorem count_failure_cex :
    ({ envAccept with countResult := none } : Collaborators).countResult
      = none
    ∧ handler { envAccept with countResult := none }
      = { response :=
            ⟨201, .successEval (insertedRow "u1" payloadA 9 1000)⟩,
          written := [insertedRow "u1" payloadA 9 1000] } :=
  ⟨rfl, rfl⟩

/-- C6 amended.  `countToday` never returns a negative count; but when
the quota-count read fails (the collaborator returns no count), the
handler does not surface the failure: it skips the quota comparison and
behaves exactly as if the count were 0 (fail-open), in particular it
never returns the 429 rejection on that path. -/
theorem count_failure_fail_open
    (env : Collaborators) (tok uid : String) (config : EvalConfig)
    (hA : env.authHeader = some tok) (hU : env.userResult = some uid)
    (hC : env.configResult = .ok config)
    (hGate : config.run_policy = "sampled" →
      samplingDecide env.randomDraw config.sample_rate_pct = true)
    (hmax : 0 < config.max_eval_per_day)
    (hcnt : env.countResult = none) :
    handler env = handler { env with countResult := some 0 }
    ∧ (handler env).response.status ≠ 429
    ∧ ∀ (log : List EvaluationRecord) (s : Int),
        (0:Int) ≤ (countToday log uid s : Int) := by
  have h1 := handler_eq_quotaAndPersist env tok uid config hA hU hC hGate
  have h2 := handler_eq_quotaAndPersist { env with countResult := some 0 }
    tok uid config hA hU hC hGate
  have hnle : ¬ config.max_eval_per_day ≤ 0 := by omega
  refine ⟨?_, ?_, fun log s => Int.ofNat_nonneg _⟩
  · rw [h1, h2]
    unfold quotaAndPersist
    rw [hcnt]
    simp [hnle]
  · rw [h1]
    unfold quotaAndPersist
    rw [hcnt]
    rcases hP : env.parseResult with m | p
    · simp [hP]
    · rcases hI : env.insertResult with m | ⟨i, t⟩ <;> simp [hP, hI]

/-- Witness for C6 amended: `envAccept` with a failed count read. -/
theorem count_failure_fail_open_witness :
    handler { envAccept with countResult := none }
      = handler { { envAccept with countResult := none } with
          countResult := some 0 }
    ∧ (handler { envAccept with countResult := none }
       ).response.status ≠ 429
    ∧ ∀ (log : List EvaluationRecord) (s : Int),
        (0:Int) ≤ (countToday log "u1" s : Int) :=
  count_failure_fail_open { envAccept with countResult := none }
    "Bearer t" "u1" cfgAlwaysK2 rfl rfl rfl
    (fun h => absurd h (by decide)) (by decide) rfl

/-! ## C7: response taxonomy -/

/-- C7 counterexample.  The statuses and body shapes are as claimed, but
the literal message strings are not: on QuotaExceeded the source's body
is `{error: "Daily evaluation limit reached"}`, not
`{error: "quota exceeded"}` (likewise 401 carries "Unauthorized" or
"Missing authorization header", 400 carries "No evaluation config
found", and the 200 skip carries "Evaluation skipped due to sampling"). -/
theorem response_taxonomy_cex :
    (handler { envAccept with countResult := some 2 }).response
      = ⟨429, .errorMsg "Daily evaluation limit reached"⟩
    ∧ (handler { envAccept with countResult := some 2 }).response
      ≠ ⟨429, .errorMsg "quota exceeded"⟩ := by
  exact ⟨rfl, by decide⟩

/-- C7 amended.  Response taxonomy with the source's actual bodies:
201 `{success: true, evaluation}` on Accepted; 200
`{message: "Evaluation skipped due to sampling"}` on Skipped; 401
`{error: "Missing authorization header"}` when the header is absent and
401 `{error: "Unauthorized"}` when the token does not resolve; 400
`{error: "No evaluation config found"}` on missing config; 429
`{error: "Daily evaluation limit reached"}` on QuotaExceeded; 500
`{error: <message>}` on parse or persistence failure — each with exactly
this status and body. -/
theorem response_taxonomy
    (e1 e2 e3 e4 e5 e6 e7 e8 : Collaborators)
    (tok uid : String) (cfg4 cfg5 cfg6 cfg7 cfg8 : EvalConfig)
    (p : EvalPayload) (newId : Nat) (stamp : Int)
    (c5 : Nat) (err3 msg6 msg7 : String)
    (h1 : e1.authHeader = none)
    (h2a : e2.authHeader = some tok) (h2b : e2.userResult = none)
    (h3a : e3.authHeader = some tok) (h3b : e3.userResult = some uid)
    (h3c : e3.configResult = .error err3)
    (h4a : e4.authHeader = some tok) (h4b : e4.userResult = some uid)
    (h4c : e4.configResult = .ok cfg4)
    (h4p : cfg4.run_policy = "sampled")
    (h4s : ¬ e4.randomDraw < (cfg4.sample_rate_pct : Rat))
    (h5a : e5.authHeader = some tok) (h5b : e5.userResult = some uid)
    (h5c : e5.configResult = .ok cfg5)
    (h5g : cfg5.run_policy = "sampled" →
      samplingDecide e5.randomDraw cfg5.sample_rate_pct = true)
    (h5cnt : e5.countResult = some c5)
    (h5ge : cfg5.max_eval_per_day ≤ c5)
    (h6a : e6.authHeader = some tok) (h6b : e6.userResult = some uid)
    (h6c : e6.configResult = .ok cfg6)
    (h6g : cfg6.run_policy = "sampled" →
      samplingDecide e6.randomDraw cfg6.sample_rate_pct = true)
    (h6q : ∀ c, e6.countResult = some c → c < cfg6.max_eval_per_day)
    (h6p : e6.parseResult = .error msg6)
    (h7a : e7.authHeader = some tok) (h7b : e7.userResult = some uid)
    (h7c : e7.configResult = .ok cfg7)
    (h7g : cfg7.run_policy = "sampled" →
      samplingDecide e7.randomDraw cfg7.sample_rate_pct = true)
    (h7q : ∀ c, e7.countResult = some c → c < cfg7.max_eval_per_day)
    (h7p : e7.parseResult = .ok p)
    (h7i : e7.insertResult = .error msg7)
    (h8a : e8.authHeader = some tok) (h8b : e8.userResult = some uid)
    (h8c : e8.configResult = .ok cfg8)
    (h8g : cfg8.run_policy = "sampled" →
      samplingDecide e8.randomDraw cfg8.sample_rate_pct = true)
    (h8q : ∀ c, e8.countResult = some c → c < cfg8.max_eval_per_day)
    (h8p : e8.parseResult = .ok p)
    (h8i : e8.insertResult = .ok newId stamp) :
    handler e1 =
      { response := ⟨401, .errorMsg "Missing authorization header"⟩,
        written := [] }
    ∧ handler e2 =
      { response := ⟨401, .errorMsg "Unauthorized"⟩, written := [] }
    ∧ handler e3 =
      { response := ⟨400, .errorMsg "No evaluation config found"⟩,
        written := [] }
    ∧ handler e4 =
      { response := ⟨200, .message "Evaluation skipped due to sampling"⟩,
        written := [] }
    ∧ handler e5 =
      { response := ⟨429, .errorMsg "Daily evaluation limit reached"⟩,
        written := [] }
    ∧ handler e6 =
      { response := ⟨500, .errorMsg msg6⟩, written := [] }
    ∧ handler e7 =
      { response := ⟨500, .errorMsg msg7⟩, written := [] }
    ∧ handler e8 =
      { response := ⟨201, .successEval (insertedRow uid p newId stamp)⟩,
        written := [insertedRow uid p newId stamp] } := by
  refine ⟨?_, ?_, ?_, ?_, ?_, ?_, ?_, ?_⟩
  · unfold handler
    rw [h1]
  · unfold handler
    rw [h2a, h2b]
  · unfold handler
    rw [h3a, h3b, h3c]
  · exact handler_skip e4 tok uid cfg4 h4a h4b h4c h4p h4s
  · rw [handler_eq_quotaAndPersist e5 tok uid cfg5 h5a h5b h5c h5g]
    exact quotaAndPersist_over e5 uid cfg5 c5 h5cnt h5ge
  · rw [handler_eq_quotaAndPersist e6 tok uid cfg6 h6a h6b h6c h6g]
    exact quotaAndPersist_parse_error e6 uid cfg6 msg6 h6q h6p
  · rw [handler_eq_quotaAndPersist e7 tok uid cfg7 h7a h7b h7c h7g]
    exact quotaAndPersist_insert_error e7 uid cfg7 p msg7 h7q h7p h7i
  · rw [handler_eq_quotaAndPersist e8 tok uid cfg8 h8a h8b h8c h8g]
    exact quotaAndPersist_accept e8 uid cfg8 p newId stamp h8q h8p h8i

/-- Witness for C7 amended: eight concrete environments, one per
outcome. -/
theorem response_taxonomy_witness :
    handler { envAccept with authHeader := none } =
      { response := ⟨401, .errorMsg "Missing authorization header"⟩,
        written := [] }
    ∧ handler { envAccept with userResult := none } =
      { response := ⟨401, .errorMsg "Unauthorized"⟩, written := [] }
    ∧ handler { envAccept with configResult := .error "io failure" } =
      { response := ⟨400, .errorMsg "No evaluation config found"⟩,
        written := [] }
    ∧ handler { envAccept with configResult := .ok cfgSampled0 } =
      { response := ⟨200, .message "Evaluation skipped due to sampling"⟩,
        written := [] }
    ∧ handler { envAccept with countResult := some 2 } =
      { response := ⟨429, .errorMsg "Daily evaluation limit reached"⟩,
        written := [] }
    ∧ handler { envAccept with parseResult := .error "invalid json" } =
      { response := ⟨500, .errorMsg "invalid json"⟩, written := [] }
    ∧ handler { envAccept with insertResult := .error "db write failed" } =
      { response := ⟨500, .errorMsg "db write failed"⟩, written := [] }
    ∧ handler envAccept =
      { response :=
          ⟨201, .successEval (insertedRow "u1" payloadA 9 1000)⟩,
        written := [insertedRow "u1" payloadA 9 1000] } :=
  response_taxonomy
    { envAccept with authHeader := none }
    { envAccept with userResult := none }
    { envAccept with configResult := .error "io failure" }
    { envAccept with configResult := .ok cfgSampled0 }
    { envAccept with countResult := some 2 }
    { envAccept with parseResult := .error "invalid json" }
    { envAccept with insertResult := .error "db write failed" }
    envAccept
    "Bearer t" "u1" cfgSampled0 cfgAlwaysK2 cfgAlwaysK2 cfgAlwaysK2
    cfgAlwaysK2 payloadA 9 1000 2 "io failure" "invalid json"
    "db write failed"
    rfl rfl rfl rfl rfl rfl rfl rfl rfl rfl
    (by norm_num [envAccept, cfgSampled0])
    rfl rfl rfl (fun h => absurd h (by decide)) rfl (by decide)
    rfl rfl rfl (fun h => absurd h (by decide))
    (fun c hc => by
      simp [envAccept] at hc
      simp [cfgAlwaysK2, ← hc])
    rfl
    rfl rfl rfl (fun h => absurd h (by decide))
    (fun c hc => by
      simp [envAccept] at hc
      simp [cfgAlwaysK2, ← hc])
    rfl rfl
    rfl rfl rfl (fun h => absurd h (by decide))
    (fun c hc => by
      simp [envAccept] at hc
      simp [cfgAlwaysK2, ← hc])
    rfl rfl

/-! ## C8: no deduplication by interaction id -/

/-- C8.  With policy `always` and quota available, two sequential calls
carrying the same payload (same `interaction_id` and all other fields)
are both accepted and append two rows to the log: the handler performs no
uniqueness check on `interaction_id`.  The two persisted rows are
distinct, their ids being freshly assigned by the store
(`id UUID PRIMARY KEY DEFAULT gen_random_uuid()`), while both carry the
payload's `interaction_id`. -/
theorem no_dedup
    (log : List EvaluationRecord) (env1 env2 : Collaborators)
    (tok uid : String) (config : EvalConfig) (p : EvalPayload)
    (newId1 newId2 : Nat) (stamp1 stamp2 : Int)
    (h1A : env1.authHeader = some tok) (h1U : env1.userResult = some uid)
    (h1C : env1.configResult = .ok config)
    (hpol : config.run_policy = "always")
    (h1Q : ∀ c, env1.countResult = some c → c < config.max_eval_per_day)
    (h1P : env1.parseResult = .ok p)
    (h1I : env1.insertResult = .ok newId1 stamp1)
    (h2A : env2.authHeader = some tok) (h2U : env2.userResult = some uid)
    (h2C : env2.configResult = .ok config)
    (h2Q : ∀ c, env2.countResult = some c → c < config.max_eval_per_day)
    (h2P : env2.parseResult = .ok p)
    (h2I : env2.insertResult = .ok newId2 stamp2)
    (hids : newId1 ≠ newId2) :
    handler env1 =
      { response := ⟨201, .successEval (insertedRow uid p newId1 stamp1)⟩,
        written := [insertedRow uid p newId1 stamp1] }
    ∧ handler env2 =
      { response := ⟨201, .successEval (insertedRow uid p newId2 stamp2)⟩,
        written := [insertedRow uid p newId2 stamp2] }
    ∧ (runCall (runCall log env1).2 env2).2
        = log ++ [insertedRow uid p newId1 stamp1,
                  insertedRow uid p newId2 stamp2]
    ∧ (runCall (runCall log env1).2 env2).2.length = log.length + 2
    ∧ insertedRow uid p newId1 stamp1 ≠ insertedRow uid p newId2 stamp2
    ∧ (insertedRow uid p newId1 stamp1).interaction_id = p.interaction_id
    ∧ (insertedRow uid p newId2 stamp2).interaction_id
        = p.interaction_id := by
  have hG1 : config.run_policy = "sampled" →
      samplingDecide env1.randomDraw config.sample_rate_pct = true :=
    fun h => absurd (hpol.symm.trans h) (by decide)
  have hG2 : config.run_policy = "sampled" →
      samplingDecide env2.randomDraw config.sample_rate_pct = true :=
    fun h => absurd (hpol.symm.trans h) (by decide)
  have r1 :=
    (handler_eq_quotaAndPersist env1 tok uid config h1A h1U h1C hG1).trans
      (quotaAndPersist_accept env1 uid config p newId1 stamp1 h1Q h1P h1I)
  have r2 :=
    (handler_eq_quotaAndPersist env2 tok uid config h2A h2U h2C hG2).trans
      (quotaAndPersist_accept env2 uid config p newId2 stamp2 h2Q h2P h2I)
  refine ⟨r1, r2, ?_, ?_, ?_, rfl, rfl⟩
  · simp [runCall, r1, r2]
  · simp [runCall, r1, r2]
  · intro h
    exact hids (congrArg EvaluationRecord.id h)

/-- Witness for C8: the same payload submitted twice against an `always`
config with quota 2; counts 0 then 1, store-assigned ids 9 then 10. -/
theorem no_dedup_witness :
    handler envAccept =
      { response := ⟨201, .successEval (insertedRow "u1" payloadA 9 1000)⟩,
        written := [insertedRow "u1" payloadA 9 1000] }
    ∧ handler { envAccept with
        countResult := some 1, insertResult := .ok 10 1001 } =
      { response :=
          ⟨201, .successEval (insertedRow "u1" payloadA 10 1001)⟩,
        written := [insertedRow "u1" payloadA 10 1001] }
    ∧ (runCall (runCall [] envAccept).2
        { envAccept with
          countResult := some 1, insertResult := .ok 10 1001 }).2
      = [] ++ [insertedRow "u1" payloadA 9 1000,
               insertedRow "u1" payloadA 10 1001]
    ∧ (runCall (runCall [] envAccept).2
        { envAccept with
          countResult := some 1, insertResult := .ok 10 1001 }).2.length
      = List.length ([] : List EvaluationRecord) + 2
    ∧ insertedRow "u1" payloadA 9 1000 ≠ insertedRow "u1" payloadA 10 1001
    ∧ (insertedRow "u1" payloadA 9 1000).interaction_id
        = payloadA.interaction_id
    ∧ (insertedRow "u1" payloadA 10 1001).interaction_id
        = payloadA.interaction_id :=
  no_dedup [] envAccept
    { envAccept with countResult := some 1, insertResult := .ok 10 1001 }
    "Bearer t" "u1" cfgAlwaysK2 payloadA 9 10 1000 1001
    rfl rfl rfl rfl
    (fun c hc => by
      simp [envAccept] at hc
      simp [cfgAlwaysK2, ← hc])
    rfl rfl
    rfl rfl rfl
    (fun c hc => by
      simp [envAccept] at hc
      simp [cfgAlwaysK2, ← hc])
    rfl rfl (by decide)

/-! ## C9: the payload is read only after the gates -/

/-- C9.  The request body is parsed only after the identity, config,
sampling and quota gates: the 401, 400, 200-skipped and 429 outcomes are
unchanged under any replacement of the parse result (so a syntactically
invalid body can still yield 200 or 429), while an authorized,
configured, in-quota call whose body fails to parse yields the 500
unexpected-failure response with the thrown message — not a 400
validation error. -/
theorem payload_parsed_after_gates
    (e1 e2 e3 e4 e5 e6 : Collaborators)
    (pr : Except String EvalPayload)
    (tok uid : String) (cfg4 cfg5 cfg6 : EvalConfig)
    (c5 : Nat) (err3 msg6 : String)
    (h1 : e1.authHeader = none)
    (h2a : e2.authHeader = some tok) (h2b : e2.userResult = none)
    (h3a : e3.authHeader = some tok) (h3b : e3.userResult = some uid)
    (h3c : e3.configResult = .error err3)
    (h4a : e4.authHeader = some tok) (h4b : e4.userResult = some uid)
    (h4c : e4.configResult = .ok cfg4)
    (h4p : cfg4.run_policy = "sampled")
    (h4s : ¬ e4.randomDraw < (cfg4.sample_rate_pct : Rat))
    (h5a : e5.authHeader = some tok) (h5b : e5.userResult = some uid)
    (h5c : e5.configResult = .ok cfg5)
    (h5g : cfg5.run_policy = "sampled" →
      samplingDecide e5.randomDraw cfg5.sample_rate_pct = true)
    (h5cnt : e5.countResult = some c5)
    (h5ge : cfg5.max_eval_per_day ≤ c5)
    (h6a : e6.authHeader = some tok) (h6b : e6.userResult = some uid)
    (h6c : e6.configResult = .ok cfg6)
    (h6g : cfg6.run_policy = "sampled" →
      samplingDecide e6.randomDraw cfg6.sample_rate_pct = true)
    (h6q : ∀ c, e6.countResult = some c → c < cfg6.max_eval_per_day)
    (h6p : e6.parseResult = .error msg6) :
    handler { e1 with parseResult := pr } = handler e1
    ∧ handler { e2 with parseResult := pr } = handler e2
    ∧ handler { e3 with parseResult := pr } = handler e3
    ∧ handler { e4 with parseResult := pr } = handler e4
    ∧ handler { e5 with parseResult := pr } = handler e5
    ∧ handler e6 =
        { response := ⟨500, .errorMsg msg6⟩, written := [] }
    ∧ (handler e6).response.status ≠ 400 := by
  have hmem : handler e6 =
      { response := ⟨500, .errorMsg msg6⟩, written := [] } :=
    (handler_eq_quotaAndPersist e6 tok uid cfg6 h6a h6b h6c h6g).trans
      (quotaAndPersist_parse_error e6 uid cfg6 msg6 h6q h6p)
  refine ⟨?_, ?_, ?_, ?_, ?_, hmem, by simp [hmem]⟩
  · simp only [handler, h1]
  · simp only [handler, h2a, h2b]
  · simp only [handler, h3a, h3b, h3c]
  · rw [handler_skip { e4 with parseResult := pr } tok uid cfg4
        h4a h4b h4c h4p h4s,
      handler_skip e4 tok uid cfg4 h4a h4b h4c h4p h4s]
  · rw [handler_eq_quotaAndPersist { e5 with parseResult := pr }
        tok uid cfg5 h5a h5b h5c h5g,
      handler_eq_quotaAndPersist e5 tok uid cfg5 h5a h5b h5c h5g,
      quotaAndPersist_over { e5 with parseResult := pr } uid cfg5 c5
        h5cnt h5ge,
      quotaAndPersist_over e5 uid cfg5 c5 h5cnt h5ge]

/-- Witness for C9: the five pre-parse outcomes are unchanged when the
body is replaced by an unparsable one, and a fully gated call with an
unparsable body yields 500. -/
theorem payload_parsed_after_gates_witness :
    handler { { envAccept with authHeader := none } with
        parseResult := .error "bad body" }
      = handler { envAccept with authHeader := none }
    ∧ handler { { envAccept with userResult := none } with
        parseResult := .error "bad body" }
      = handler { envAccept with userResult := none }
    ∧ handler { { envAccept with configResult := .error "io failure" } with
        parseResult := .error "bad body" }
      = handler { envAccept with configResult := .error "io failure" }
    ∧ handler { { envAccept with configResult := .ok cfgSampled0 } with
        parseResult := .error "bad body" }
      = handler { envAccept with configResult := .ok cfgSampled0 }
    ∧ handler { { envAccept with countResult := some 2 } with
        parseResult := .error "bad body" }
      = handler { envAccept with countResult := some 2 }
    ∧ handler { envAccept with parseResult := .error "bad body" } =
        { response := ⟨500, .errorMsg "bad body"⟩, written := [] }
    ∧ (handler { envAccept with parseResult := .error "bad body" }
       ).response.status ≠ 400 :=
  payload_parsed_after_gates
    { envAccept with authHeader := none }
    { envAccept with userResult := none }
    { envAccept with configResult := .error "io failure" }
    { envAccept with configResult := .ok cfgSampled0 }
    { envAccept with countResult := some 2 }
    { envAccept with parseResult := .error "bad body" }
    (.error "bad body")
    "Bearer t" "u1" cfgSampled0 cfgAlwaysK2 cfgAlwaysK2
    2 "io failure" "bad body"
    rfl rfl rfl rfl rfl rfl rfl rfl rfl rfl
    (by norm_num [envAccept, cfgSampled0])
    rfl rfl rfl (fun h => absurd h (by decide)) rfl (by decide)
    rfl rfl rfl (fun h => absurd h (by decide))
    (fun c hc => by
      simp [envAccept] at hc
      simp [cfgAlwaysK2, ← hc])
    rfl

end IngestEval
